import Mathlib

/-!
Verification development for the `elf_mc_fp` front-panel controller.

Shallow embedding of `src/python/elf.py` (the `Elf` register store over the
MCP23017 port pair) and `src/python/elf_fp.py` (pulse, program loading, the
two bootstrap protocols, key dispatch and the control loop).

Machine bytes are modelled as `Nat`; the Python `int` held in the data
mirror is modelled as `Int` (Python ints are unbounded and signed, and the
data setter performs no masking).  Python bitwise `&`/`|` on `int` are
two's complement, exactly the semantics of `Int.land`/`Int.lor`; Python
`x << k` on `int` is `x * 2 ^ k`.  Bit clearing `x & ~mask` on a
non-negative `x` is `Nat.ldiff x mask`.
-/

/-! ### Constants from `elf.py` -/

def OUTPUT : Nat := 0

def WAIT_N : Nat := 1 <<< 4

def CLEAR_N : Nat := 1 <<< 3

def MEM_PROTECT : Nat := 1 <<< 0

def EF4_N : Nat := 1 <<< 2

def STB_N : Nat := 1 <<< 1

def MODE : Nat := CLEAR_N ||| WAIT_N

namespace Elf

/-- `Elf.Mode`: the machine-mode enumeration of `elf.py`. -/
inductive Mode where
  | LOAD
  | RESET
  | PAUSE
  | RUN
deriving DecidableEq

/-- The enumeration values fixed in `elf.py`:
`LOAD = 0x0`, `RESET = 0x10`, `PAUSE = 0x08`, `RUN = 0x18`. -/
def Mode.value : Mode → Nat
  | .LOAD => 0x0
  | .RESET => 0x10
  | .PAUSE => 0x08
  | .RUN => 0x18

/-- A Python value passed to the `mode` property setter: either a member of
the `Elf.Mode` enumeration or any other (foreign) value, for which the
setter's `isinstance` guard fails.  Foreign values are indexed by a `Nat`
token; their identity is irrelevant to the setter. -/
inductive MVal where
  | mode (m : Mode)
  | other (n : Nat)
deriving DecidableEq

/-- The Python exception channel of the mode setter.  The spec's error
taxonomy names an `InvalidArgument` condition for out-of-enumeration mode
values; the embedding gives the setter an `Except` result so that raising
versus returning normally is observable. -/
inductive PyErr where
  | invalidArgument
deriving DecidableEq

end Elf

/-- The `Elf` object state: the two MCP23017 output ports (`gpioa` for the
data bus, `gpiob` for the control lines) together with the in-memory
mirrors `self._data`, `self._mode`, `self._mem_protect`, `self._ef4_n`,
`self._stb_n`. -/
structure ElfState where
  gpioa : Int
  gpiob : Nat
  dataMirror : Int
  modeMirror : Elf.Mode
  memProtectMirror : Bool
  ef4Mirror : Bool
  stbMirror : Bool
deriving DecidableEq

namespace Elf

/-- Getter `Elf.data`: returns the in-memory mirror `self._data`. -/
def data (s : ElfState) : Int := s.dataMirror

/-- Getter `Elf.mode`: returns `self._mode`. -/
def mode (s : ElfState) : Mode := s.modeMirror

/-- Getter `Elf.mem_protect`: returns `self._mem_protect`. -/
def mem_protect (s : ElfState) : Bool := s.memProtectMirror

/-- Getter `Elf.ef4_n`: returns `self._ef4_n`. -/
def ef4_n (s : ElfState) : Bool := s.ef4Mirror

/-- Getter `Elf.stb_n`: returns `self._stb_n`. -/
def stb_n (s : ElfState) : Bool := s.stbMirror

/-- Setter `Elf.data`: `self._data = value; self._mcp.gpioa = self._data`.
A direct full write, no masking or range check. -/
def set_data (v : Int) (s : ElfState) : ElfState :=
  { s with dataMirror := v, gpioa := v }

/-- The mutation performed by the `Elf.mode` setter for a value that is a
member of the enumeration:
`self._mode = value; self._mcp.gpiob = (self._mcp.gpiob & ~MODE) | value.value`. -/
def setModeV (m : Mode) (s : ElfState) : ElfState :=
  { s with modeMirror := m, gpiob := Nat.ldiff s.gpiob MODE ||| m.value }

/-- Setter `Elf.mode`: guarded by `isinstance(value, self.Mode)`.  A value
of the enumeration is applied; any other value makes the setter fall
through and return normally, raising nothing and touching nothing. -/
def set_mode (v : MVal) (s : ElfState) : Except PyErr ElfState :=
  match v with
  | .mode m => .ok (setModeV m s)
  | .other _ => .ok s

/-- Setter `Elf.mem_protect`: true sets bit `MEM_PROTECT` (`gpiob |= MEM_PROTECT`),
false clears it (`gpiob &= ~MEM_PROTECT`); the mirror stores the boolean. -/
def set_mem_protect (b : Bool) (s : ElfState) : ElfState :=
  if b then
    { s with memProtectMirror := true, gpiob := s.gpiob ||| MEM_PROTECT }
  else
    { s with memProtectMirror := false, gpiob := Nat.ldiff s.gpiob MEM_PROTECT }

/-- Setter `Elf.ef4_n`: active low.  true clears the wire bit
(`gpiob &= ~EF4_N`), false sets it (`gpiob |= EF4_N`). -/
def set_ef4_n (b : Bool) (s : ElfState) : ElfState :=
  if b then
    { s with ef4Mirror := true, gpiob := Nat.ldiff s.gpiob EF4_N }
  else
    { s with ef4Mirror := false, gpiob := s.gpiob ||| EF4_N }

/-- Setter `Elf.stb_n`: active low.  true clears the wire bit
(`gpiob &= ~STB_N`), false sets it (`gpiob |= STB_N`). -/
def set_stb_n (b : Bool) (s : ElfState) : ElfState :=
  if b then
    { s with stbMirror := true, gpiob := Nat.ldiff s.gpiob STB_N }
  else
    { s with stbMirror := false, gpiob := s.gpiob ||| STB_N }

/-- Models Python `Elf.Mode(state & MODE)` from the warm-reattach branch of
`Elf.__init__`: decodes the two-bit mode field back to the enumeration.
The argument is always masked with `MODE`, so it ranges over
`{0x00, 0x08, 0x10, 0x18}`, on which this decoder is exact; the final
else-branch (`LOAD`) is the `0x00` case. -/
def decodeMode (n : Nat) : Mode :=
  if n = 0x10 then .RESET
  else if n = 0x08 then .PAUSE
  else if n = 0x18 then .RUN
  else .LOAD

/-- A low-level write performed against the MCP23017 during construction:
to a direction register or to a port data register. -/
inductive WEv where
  | iodira (v : Nat)
  | iodirb (v : Nat)
  | gpioa (v : Int)
  | gpiob (v : Nat)
deriving DecidableEq

/-- True for write events that touch port A (its direction or data register). -/
def WEv.touchesA : WEv → Bool
  | .iodira _ => true
  | .gpioa _ => true
  | _ => false

/-- True for write events that touch port B (its direction or data register). -/
def WEv.touchesB : WEv → Bool
  | .iodirb _ => true
  | .gpiob _ => true
  | _ => false

/-- `Elf.__init__`, given the hardware state found at attach time:
direction registers `ia`/`ib` and current port bytes `ga`/`gb`.
Per port: if the direction register is not already all-output (`OUTPUT = 0`),
configure it and write that port's defaults through the normal setters;
otherwise adopt the port's current byte into the mirrors with no write.
Returns the constructed state and the list of low-level writes performed. -/
def init (ia ib : Nat) (ga : Int) (gb : Nat) : ElfState × List WEv :=
  let s0 : ElfState :=
    { gpioa := ga, gpiob := gb, dataMirror := 0, modeMirror := .RESET,
      memProtectMirror := false, ef4Mirror := false, stbMirror := false }
  let pa : ElfState × List WEv :=
    if ia ≠ OUTPUT then
      (set_data 0x00 s0, [.iodira OUTPUT, .gpioa 0x00])
    else
      ({ s0 with dataMirror := ga }, [])
  let s1 := pa.1
  let pb : ElfState × List WEv :=
    if ib ≠ OUTPUT then
      let t1 := setModeV .RESET s1
      let t2 := set_ef4_n false t1
      let t3 := set_stb_n false t2
      let t4 := set_mem_protect false t3
      (t4, [.iodirb OUTPUT, .gpiob t1.gpiob, .gpiob t2.gpiob,
            .gpiob t3.gpiob, .gpiob t4.gpiob])
    else
      ({ s1 with
          modeMirror := decodeMode (gb &&& MODE),
          ef4Mirror := decide (gb &&& EF4_N = 0),
          stbMirror := decide (gb &&& STB_N = 0),
          memProtectMirror := decide (gb &&& MEM_PROTECT ≠ 0) }, [])
  (pb.1, pa.2 ++ pb.2)

end Elf

/-! ### Embedding of `elf_fp.py` -/

namespace Fp

/-- The interaction-mode enumeration `Mode` of `elf_fp.py`:
`CONTROL` versus `KEYBOARD`. -/
inductive Mode where
  | CONTROL
  | KEYBOARD
deriving DecidableEq

/-- One observable operation performed on the `CARD` register store by the
front-panel code, plus the real-time hold performed by `time.sleep`
(milliseconds). -/
inductive Ev where
  | setMode (m : Elf.Mode)
  | setData (v : Int)
  | setMemProtect (b : Bool)
  | setEf4 (b : Bool)
  | setStb (b : Bool)
  | sleep (ms : Nat)
deriving DecidableEq

/-- Card state paired with the trace of operations performed so far. -/
abbrev ST := ElfState × List Ev

/-- One `CARD` property assignment: applies the register-store setter to the
state and appends the corresponding event to the trace.  `time.sleep` is
the same with the identity on state. -/
def step (e : Ev) (f : ElfState → ElfState) (st : ST) : ST :=
  (f st.1, st.2 ++ [e])

/-- `press_input()`:
`CARD.ef4_n = True; time.sleep(0.005); CARD.ef4_n = False`. -/
def press_input (st : ST) : ST :=
  st |> step (.setEf4 true) (Elf.set_ef4_n true)
     |> step (.sleep 5) id
     |> step (.setEf4 false) (Elf.set_ef4_n false)

/-- `load_program(bin_file)`: the byte-at-a-time while loop — for each byte
of the image, in order, `CARD.data = byte[0]` then `press_input()`; stops
when the stream is exhausted.  The image is the byte sequence delivered by
the file collaborator. -/
def load_program : List Nat → ST → ST
  | [], st => st
  | b :: rest, st =>
      load_program rest
        (st |> step (.setData (b : Int)) (Elf.set_data (b : Int)) |> press_input)

/-- The three firmware images read by `load_monitor()`:
`bootstrap.bin`, `max_mon.bin`, `max_bios.bin`, as byte sequences supplied
by the binary-image collaborator. -/
structure Images where
  bootstrap : List Nat
  max_mon : List Nat
  max_bios : List Nat

/-- `load_monitor()`: the fixed monitor/BIOS bootstrap sequence of
`elf_fp.py`, parameterised by the contents of the three image files. -/
def load_monitor (imgs : Images) (st : ST) : ST :=
  st |> step (.setMode .RESET) (Elf.setModeV .RESET)
     |> step (.setMode .LOAD) (Elf.setModeV .LOAD)
     |> step (.setMemProtect false) (Elf.set_mem_protect false)
     |> load_program imgs.bootstrap
     |> step (.setMode .RESET) (Elf.setModeV .RESET)
     |> step (.setMode .RUN) (Elf.setModeV .RUN)
     |> step (.setData 0x80) (Elf.set_data 0x80)
     |> press_input
     |> step (.setData 0x00) (Elf.set_data 0x00)
     |> press_input
     |> load_program imgs.max_mon
     |> step (.setMode .RESET) (Elf.setModeV .RESET)
     |> step (.setMode .RUN) (Elf.setModeV .RUN)
     |> step (.setData 0x84) (Elf.set_data 0x84)
     |> press_input
     |> step (.setData 0x00) (Elf.set_data 0x00)
     |> press_input
     |> load_program imgs.max_bios
     |> step (.setMode .RESET) (Elf.setModeV .RESET)

/-- `run_monitor()`: the fixed monitor-entry sequence of `elf_fp.py`. -/
def run_monitor (st : ST) : ST :=
  st |> step (.setMode .RESET) (Elf.setModeV .RESET)
     |> step (.setMode .LOAD) (Elf.setModeV .LOAD)
     |> step (.setData 0xC0) (Elf.set_data 0xC0)
     |> press_input
     |> step (.setData 0x80) (Elf.set_data 0x80)
     |> press_input
     |> step (.setData 0x00) (Elf.set_data 0x00)
     |> press_input
     |> step (.setMode .RESET) (Elf.setModeV .RESET)
     |> step (.setMode .RUN) (Elf.setModeV .RUN)

/-- Python `x << k` on an unbounded `int`: multiplication by `2 ^ k`. -/
def pyShl (a : Int) (k : Nat) : Int := a * 2 ^ k

/-- The hex-nibble update of `on_key`:
`(CARD.data << 4 | nibble) & 0xff`, with Python's two's-complement
`|`/`&` given by `Int.lor`/`Int.land`. -/
def hexShift (d : Int) (nibble : Nat) : Int :=
  Int.land (Int.lor (pyShl d 4) (Int.ofNat nibble)) 0xff

/-- One hex-digit branch of `on_key`:
`CARD.data = (CARD.data << 4 | nibble) & 0xff`. -/
def hexKey (nibble : Nat) (st : ST) : ST :=
  let v := hexShift (Elf.data st.1) nibble
  st |> step (.setData v) (Elf.set_data v)

/-- `on_key(key)`: the CONTROL-mode key dispatch chain of `elf_fp.py`,
parameterised by the firmware images consumed by the `'z'` branch. -/
def on_key (imgs : Images) (key : Char) (st : ST) : ST :=
  if key = 'i' ∨ key = '\n' ∨ key = ' ' then
    st |> step (.setEf4 true) (Elf.set_ef4_n true)
  else if key = '0' then hexKey 0x0 st
  else if key = '1' then hexKey 0x1 st
  else if key = '2' then hexKey 0x2 st
  else if key = '3' then hexKey 0x3 st
  else if key = '4' then hexKey 0x4 st
  else if key = '5' then hexKey 0x5 st
  else if key = '6' then hexKey 0x6 st
  else if key = '7' then hexKey 0x7 st
  else if key = '8' then hexKey 0x8 st
  else if key = '9' then hexKey 0x9 st
  else if key = 'a' then hexKey 0xA st
  else if key = 'b' then hexKey 0xB st
  else if key = 'c' then hexKey 0xC st
  else if key = 'd' then hexKey 0xD st
  else if key = 'e' then hexKey 0xE st
  else if key = 'f' then hexKey 0xF st
  else if key = 'l' then st |> step (.setMode .LOAD) (Elf.setModeV .LOAD)
  else if key = 'r' then st |> step (.setMode .RESET) (Elf.setModeV .RESET)
  else if key = 'g' then st |> step (.setMode .RUN) (Elf.setModeV .RUN)
  else if key = 'w' then st |> step (.setMode .PAUSE) (Elf.setModeV .PAUSE)
  else if key = 'p' then
    let v := !(Elf.mem_protect st.1)
    st |> step (.setMemProtect v) (Elf.set_mem_protect v)
  else if key = 'z' then load_monitor imgs st
  else if key = 'm' then run_monitor st
  else st

/-- `on_release(_key)`: `CARD.ef4_n = False; CARD.stb_n = False`,
independent of the key and of the interaction mode. -/
def on_release (st : ST) : ST :=
  st |> step (.setEf4 false) (Elf.set_ef4_n false)
     |> step (.setStb false) (Elf.set_stb_n false)

/-- The keys for which `run_card` registers `on_release` with the keyboard
hook collaborator (`keyboard.on_release_key`): exactly `'i'`, newline and
space. -/
def release_hook_keys : List Char := ['i', '\n', ' ']

/-- The ASCII fragment of Python `str.lower()` applied to the one-character
string returned by `getch()`. -/
def pyLower (c : Char) : Char :=
  if 'A' ≤ c ∧ c ≤ 'Z' then Char.ofNat (c.toNat + 32) else c

/-- One iteration of the `run_card` loop body, given the raw character read
by `getch()`.  Returns (done flag, next interaction mode, card state and
trace).  `char = getch().lower()`; `'q'` terminates; a NUL character
toggles the interaction mode; in KEYBOARD mode the character's code is
staged and the strobe asserted; otherwise the character is dispatched to
`on_key`. -/
def run_card_step (imgs : Images) (m : Mode) (c0 : Char) (st : ST) :
    Bool × Mode × ST :=
  let c := pyLower c0
  if c = 'q' then
    (true, m, st)
  else if c.toNat = 0 then
    (false, (match m with | .CONTROL => .KEYBOARD | .KEYBOARD => .CONTROL), st)
  else if m = .KEYBOARD then
    (false, m,
      st |> step (.setData (c.toNat : Int)) (Elf.set_data (c.toNat : Int))
         |> step (.setStb true) (Elf.set_stb_n true))
  else
    (false, m, on_key imgs c st)

end Fp

/-- A concrete register-store state used to instantiate theorems: mode
RESET and all booleans false, with the port byte `0x16` encoding exactly
those fields (WAIT_N set, CLEAR_N clear, both active-low lines deasserted
high, protect clear). -/
def sampleState : ElfState :=
  { gpioa := 0, gpiob := 0x16, dataMirror := 0, modeMirror := .RESET,
    memProtectMirror := false, ef4Mirror := false, stbMirror := false }

/-- Concrete empty firmware images used to instantiate theorems. -/
def sampleImages : Fp.Images := ⟨[], [], []⟩

/-- The §3 encoding relation between the logical mirrors and the
control-port byte: the mode mirror's enumeration value equals the two-bit
mode field of the byte, and the stored booleans for `ef4_n` and `stb_n`
are the inverses of wire bits 2 and 1. -/
def encInv (s : ElfState) : Prop :=
  s.modeMirror.value = s.gpiob &&& MODE
  ∧ s.ef4Mirror = !Nat.testBit s.gpiob 2
  ∧ s.stbMirror = !Nat.testBit s.gpiob 1

instance (s : ElfState) : Decidable (encInv s) := by
  unfold encInv
  infer_instance

/-- The key-to-nibble table of the sixteen hex-digit branches of `on_key`:
`'0'`..`'9'` and `'a'`..`'f'` map to their literal nibble values; every
other key is not a hex digit. -/
def hexVal (c : Char) : Option Nat :=
  if c = '0' then some 0x0
  else if c = '1' then some 0x1
  else if c = '2' then some 0x2
  else if c = '3' then some 0x3
  else if c = '4' then some 0x4
  else if c = '5' then some 0x5
  else if c = '6' then some 0x6
  else if c = '7' then some 0x7
  else if c = '8' then some 0x8
  else if c = '9' then some 0x9
  else if c = 'a' then some 0xA
  else if c = 'b' then some 0xB
  else if c = 'c' then some 0xC
  else if c = 'd' then some 0xD
  else if c = 'e' then some 0xE
  else if c = 'f' then some 0xF
  else none

/-! ### Bit-level helper lemmas -/

theorem testBit_one_ne {i : Nat} (h : i ≠ 0) : Nat.testBit 1 i = false := by
  rw [show (1 : Nat) = 2 ^ 0 from rfl, Nat.testBit_two_pow]
  exact decide_eq_false fun hk => h hk.symm

theorem testBit_two_ne {i : Nat} (h : i ≠ 1) : Nat.testBit 2 i = false := by
  rw [show (2 : Nat) = 2 ^ 1 from rfl, Nat.testBit_two_pow]
  exact decide_eq_false fun hk => h hk.symm

theorem testBit_four_ne {i : Nat} (h : i ≠ 2) : Nat.testBit 4 i = false := by
  rw [show (4 : Nat) = 2 ^ 2 from rfl, Nat.testBit_two_pow]
  exact decide_eq_false fun hk => h hk.symm

theorem testBit_eight_ne {i : Nat} (h : i ≠ 3) : Nat.testBit 8 i = false := by
  rw [show (8 : Nat) = 2 ^ 3 from rfl, Nat.testBit_two_pow]
  exact decide_eq_false fun hk => h hk.symm

theorem testBit_sixteen_ne {i : Nat} (h : i ≠ 4) : Nat.testBit 16 i = false := by
  rw [show (16 : Nat) = 2 ^ 4 from rfl, Nat.testBit_two_pow]
  exact decide_eq_false fun hk => h hk.symm

theorem testBit_MODE_ne {i : Nat} (h3 : i ≠ 3) (h4 : i ≠ 4) :
    Nat.testBit MODE i = false := by
  rw [show MODE = 8 ||| 16 from rfl, Nat.testBit_lor,
    testBit_eight_ne h3, testBit_sixteen_ne h4]
  rfl

theorem value_testBit_ne (m : Elf.Mode) {i : Nat} (h3 : i ≠ 3) (h4 : i ≠ 4) :
    Nat.testBit m.value i = false := by
  cases m with
  | LOAD => exact Nat.zero_testBit i
  | RESET => exact testBit_sixteen_ne h4
  | PAUSE => exact testBit_eight_ne h3
  | RUN => exact testBit_MODE_ne h3 h4

theorem testBit_lor_other {g m i : Nat} (h : Nat.testBit m i = false) :
    Nat.testBit (g ||| m) i = Nat.testBit g i := by
  rw [Nat.testBit_lor, h, Bool.or_false]

theorem testBit_ldiff_other {g m i : Nat} (h : Nat.testBit m i = false) :
    Nat.testBit (Nat.ldiff g m) i = Nat.testBit g i := by
  rw [Nat.testBit_ldiff, h]
  simp

/-! ### Trace decomposition lemmas -/

theorem step_trace (e : Fp.Ev) (f : ElfState → ElfState) (st : Fp.ST) :
    (Fp.step e f st).2 = st.2 ++ [e] := rfl

theorem press_input_trace (st : Fp.ST) :
    (Fp.press_input st).2 = st.2 ++ [.setEf4 true, .sleep 5, .setEf4 false] := by
  simp [Fp.press_input, Fp.step]

theorem load_program_trace (l : List Nat) (st : Fp.ST) :
    (Fp.load_program l st).2 =
      st.2 ++ l.flatMap
        (fun b => [.setData (b : Int), .setEf4 true, .sleep 5, .setEf4 false]) := by
  induction l generalizing st with
  | nil => simp [Fp.load_program]
  | cons b rest ih =>
      rw [Fp.load_program, ih, press_input_trace, step_trace]
      simp

/-! ### Claim theorems -/

/-- Claim C1: `run_monitor()` always performs exactly the fixed operation
sequence — mode RESET, mode LOAD, data 0xC0 + pulse, data 0x80 + pulse,
data 0x00 + pulse, mode RESET, mode RUN — regardless of the prior register
state, with no other operations and no reordering.  Each pulse is the
`press_input` triple: assert EF4, hold 5 ms, deassert EF4. -/
theorem C1_run_monitor_trace (s : ElfState) (tr : List Fp.Ev) :
    (Fp.run_monitor (s, tr)).2 =
      tr ++ [.setMode .RESET, .setMode .LOAD,
             .setData 0xC0, .setEf4 true, .sleep 5, .setEf4 false,
             .setData 0x80, .setEf4 true, .sleep 5, .setEf4 false,
             .setData 0x00, .setEf4 true, .sleep 5, .setEf4 false,
             .setMode .RESET, .setMode .RUN] := by
  simp [Fp.run_monitor, Fp.press_input, Fp.step]

/-- Claim C5 counterexample: the claim says a non-enumeration argument to
`set_mode` fails with an InvalidArgument condition; on the code the
`isinstance` guard makes the setter return normally (`.ok`), never raising,
at this concrete foreign value. -/
theorem C5_counterexample :
    Elf.set_mode (.other 0) sampleState = .ok sampleState ∧
    Elf.set_mode (.other 0) sampleState ≠ .error .invalidArgument := by
  exact ⟨rfl, by simp [Elf.set_mode]⟩

/-- Claim C5 (amended): `set_mode` with a value outside the 4-element mode
enumeration is silently ignored: the call returns normally (no
InvalidArgument is raised) and mutates nothing — neither the in-memory
mode nor any bit of the control port (no partial write). -/
theorem C5_amended_silent_ignore (n : Nat) (s : ElfState) :
    Elf.set_mode (.other n) s = .ok s := rfl

/-- Claim C9: every call to `press_input` (the pulse primitive) performs
exactly: assert EF4 (`ef4_n ← true`), hold for the fixed synchronous 5 ms
interval (`time.sleep(0.005)`), then deassert (`ef4_n ← false`), in that
order; afterwards the logical line is deasserted (mirror false, wire bit 2
high) and no other state is touched. -/
theorem C9_press_input (s : ElfState) (tr : List Fp.Ev) :
    (Fp.press_input (s, tr)).2 = tr ++ [.setEf4 true, .sleep 5, .setEf4 false]
  ∧ Elf.ef4_n (Fp.press_input (s, tr)).1 = false
  ∧ Nat.testBit (Fp.press_input (s, tr)).1.gpiob 2 = true
  ∧ (∀ i, i ≠ 2 →
      Nat.testBit (Fp.press_input (s, tr)).1.gpiob i = Nat.testBit s.gpiob i)
  ∧ Elf.data (Fp.press_input (s, tr)).1 = Elf.data s
  ∧ Elf.mode (Fp.press_input (s, tr)).1 = Elf.mode s
  ∧ Elf.mem_protect (Fp.press_input (s, tr)).1 = Elf.mem_protect s
  ∧ Elf.stb_n (Fp.press_input (s, tr)).1 = Elf.stb_n s
  ∧ (Fp.press_input (s, tr)).1.gpioa = s.gpioa := by
  refine ⟨by simp [Fp.press_input, Fp.step], rfl, ?_, ?_, rfl, rfl, rfl, rfl, rfl⟩
  · show Nat.testBit (Nat.ldiff s.gpiob EF4_N ||| EF4_N) 2 = true
    rw [Nat.testBit_lor, show Nat.testBit EF4_N 2 = true from by decide,
      Bool.or_true]
  · intro i hi
    show Nat.testBit (Nat.ldiff s.gpiob EF4_N ||| EF4_N) i = Nat.testBit s.gpiob i
    rw [show EF4_N = 4 from rfl, testBit_lor_other (testBit_four_ne hi),
      testBit_ldiff_other (testBit_four_ne hi)]

/-- Claim C9 witness at concrete inputs. -/
theorem C9_press_input_witness :
    (Fp.press_input (sampleState, [])).2 = [.setEf4 true, .sleep 5, .setEf4 false]
  ∧ Nat.testBit (Fp.press_input (sampleState, [])).1.gpiob 0 =
      Nat.testBit sampleState.gpiob 0 := by
  have h := C9_press_input sampleState []
  exact ⟨h.1, h.2.2.2.1 0 (by decide)⟩

set_option maxHeartbeats 1000000 in
/-- Claim C2: for every triple of input images of lengths 3, 2 and 1,
`load_monitor()` performs exactly the interleaving fixed in §4.3 — RESET,
LOAD, mem_protect false, image 1, RESET, RUN, 0x80+pulse, 0x00+pulse,
image 2, RESET, RUN, 0x84+pulse, 0x00+pulse, image 3, RESET — and each of
the 3+2+1 = 6 image bytes is staged into `data` immediately before its own
pulse, one byte fully written and pulsed before the next (the per-image
`load_program` traces are also given separately).  Each pulse is the
`press_input` triple: assert EF4, hold 5 ms, deassert EF4. -/
theorem C2_load_monitor_trace (s : ElfState) (a b c d e f : Nat) :
    ((Fp.load_monitor ⟨[a, b, c], [d, e], [f]⟩ (s, [])).2 =
      [.setMode .RESET, .setMode .LOAD, .setMemProtect false,
       .setData (a : Int), .setEf4 true, .sleep 5, .setEf4 false,
       .setData (b : Int), .setEf4 true, .sleep 5, .setEf4 false,
       .setData (c : Int), .setEf4 true, .sleep 5, .setEf4 false,
       .setMode .RESET, .setMode .RUN,
       .setData 0x80, .setEf4 true, .sleep 5, .setEf4 false,
       .setData 0x00, .setEf4 true, .sleep 5, .setEf4 false,
       .setData (d : Int), .setEf4 true, .sleep 5, .setEf4 false,
       .setData (e : Int), .setEf4 true, .sleep 5, .setEf4 false,
       .setMode .RESET, .setMode .RUN,
       .setData 0x84, .setEf4 true, .sleep 5, .setEf4 false,
       .setData 0x00, .setEf4 true, .sleep 5, .setEf4 false,
       .setData (f : Int), .setEf4 true, .sleep 5, .setEf4 false,
       .setMode .RESET])
  ∧ ((Fp.load_program [a, b, c] (s, [])).2 =
      [.setData (a : Int), .setEf4 true, .sleep 5, .setEf4 false,
       .setData (b : Int), .setEf4 true, .sleep 5, .setEf4 false,
       .setData (c : Int), .setEf4 true, .sleep 5, .setEf4 false])
  ∧ ((Fp.load_program [d, e] (s, [])).2 =
      [.setData (d : Int), .setEf4 true, .sleep 5, .setEf4 false,
       .setData (e : Int), .setEf4 true, .sleep 5, .setEf4 false])
  ∧ ((Fp.load_program [f] (s, [])).2 =
      [.setData (f : Int), .setEf4 true, .sleep 5, .setEf4 false]) := by
  refine ⟨?_, ?_, ?_, ?_⟩ <;>
    simp only [Fp.load_monitor, load_program_trace, press_input_trace, step_trace,
      List.flatMap_cons, List.flatMap_nil, List.append_assoc, List.cons_append,
      List.nil_append, List.append_nil]

/-- Claim C3: every setter of a logical control-port field leaves all other
bits of the control-port byte — and every other logical field's getter
result — unchanged; and after `set_mode(X)` for each of the four modes,
`get_mode()` returns X.  The mode field occupies bits 3 and 4, mem_protect
bit 0, stb_n bit 1, ef4_n bit 2. -/
theorem C3_setter_frame (s : ElfState) :
    (∀ m : Elf.Mode,
        Elf.mode (Elf.setModeV m s) = m
      ∧ Elf.mem_protect (Elf.setModeV m s) = Elf.mem_protect s
      ∧ Elf.ef4_n (Elf.setModeV m s) = Elf.ef4_n s
      ∧ Elf.stb_n (Elf.setModeV m s) = Elf.stb_n s
      ∧ Elf.data (Elf.setModeV m s) = Elf.data s
      ∧ ∀ i, i ≠ 3 → i ≠ 4 →
          Nat.testBit (Elf.setModeV m s).gpiob i = Nat.testBit s.gpiob i)
  ∧ (∀ b : Bool,
        Elf.mem_protect (Elf.set_mem_protect b s) = b
      ∧ Elf.mode (Elf.set_mem_protect b s) = Elf.mode s
      ∧ Elf.ef4_n (Elf.set_mem_protect b s) = Elf.ef4_n s
      ∧ Elf.stb_n (Elf.set_mem_protect b s) = Elf.stb_n s
      ∧ Elf.data (Elf.set_mem_protect b s) = Elf.data s
      ∧ ∀ i, i ≠ 0 →
          Nat.testBit (Elf.set_mem_protect b s).gpiob i = Nat.testBit s.gpiob i)
  ∧ (∀ b : Bool,
        Elf.ef4_n (Elf.set_ef4_n b s) = b
      ∧ Elf.mode (Elf.set_ef4_n b s) = Elf.mode s
      ∧ Elf.mem_protect (Elf.set_ef4_n b s) = Elf.mem_protect s
      ∧ Elf.stb_n (Elf.set_ef4_n b s) = Elf.stb_n s
      ∧ Elf.data (Elf.set_ef4_n b s) = Elf.data s
      ∧ ∀ i, i ≠ 2 →
          Nat.testBit (Elf.set_ef4_n b s).gpiob i = Nat.testBit s.gpiob i)
  ∧ (∀ b : Bool,
        Elf.stb_n (Elf.set_stb_n b s) = b
      ∧ Elf.mode (Elf.set_stb_n b s) = Elf.mode s
      ∧ Elf.mem_protect (Elf.set_stb_n b s) = Elf.mem_protect s
      ∧ Elf.ef4_n (Elf.set_stb_n b s) = Elf.ef4_n s
      ∧ Elf.data (Elf.set_stb_n b s) = Elf.data s
      ∧ ∀ i, i ≠ 1 →
          Nat.testBit (Elf.set_stb_n b s).gpiob i = Nat.testBit s.gpiob i) := by
  refine ⟨fun m => ⟨rfl, rfl, rfl, rfl, rfl, fun i h3 h4 => ?_⟩,
    fun b => ?_, fun b => ?_, fun b => ?_⟩
  · show Nat.testBit (Nat.ldiff s.gpiob MODE ||| m.value) i = Nat.testBit s.gpiob i
    rw [testBit_lor_other (value_testBit_ne m h3 h4),
      testBit_ldiff_other (testBit_MODE_ne h3 h4)]
  · cases b with
    | true =>
        refine ⟨rfl, rfl, rfl, rfl, rfl, fun i hi => ?_⟩
        show Nat.testBit (s.gpiob ||| MEM_PROTECT) i = Nat.testBit s.gpiob i
        rw [show MEM_PROTECT = 1 from rfl, testBit_lor_other (testBit_one_ne hi)]
    | false =>
        refine ⟨rfl, rfl, rfl, rfl, rfl, fun i hi => ?_⟩
        show Nat.testBit (Nat.ldiff s.gpiob MEM_PROTECT) i = Nat.testBit s.gpiob i
        rw [show MEM_PROTECT = 1 from rfl, testBit_ldiff_other (testBit_one_ne hi)]
  · cases b with
    | true =>
        refine ⟨rfl, rfl, rfl, rfl, rfl, fun i hi => ?_⟩
        show Nat.testBit (Nat.ldiff s.gpiob EF4_N) i = Nat.testBit s.gpiob i
        rw [show EF4_N = 4 from rfl, testBit_ldiff_other (testBit_four_ne hi)]
    | false =>
        refine ⟨rfl, rfl, rfl, rfl, rfl, fun i hi => ?_⟩
        show Nat.testBit (s.gpiob ||| EF4_N) i = Nat.testBit s.gpiob i
        rw [show EF4_N = 4 from rfl, testBit_lor_other (testBit_four_ne hi)]
  · cases b with
    | true =>
        refine ⟨rfl, rfl, rfl, rfl, rfl, fun i hi => ?_⟩
        show Nat.testBit (Nat.ldiff s.gpiob STB_N) i = Nat.testBit s.gpiob i
        rw [show STB_N = 2 from rfl, testBit_ldiff_other (testBit_two_ne hi)]
    | false =>
        refine ⟨rfl, rfl, rfl, rfl, rfl, fun i hi => ?_⟩
        show Nat.testBit (s.gpiob ||| STB_N) i = Nat.testBit s.gpiob i
        rw [show STB_N = 2 from rfl, testBit_lor_other (testBit_two_ne hi)]

/-- Claim C3 witness at concrete inputs. -/
theorem C3_setter_frame_witness :
    Elf.mode (Elf.setModeV .LOAD sampleState) = .LOAD
  ∧ Nat.testBit (Elf.setModeV .LOAD sampleState).gpiob 7 =
      Nat.testBit sampleState.gpiob 7
  ∧ Nat.testBit (Elf.set_ef4_n true sampleState).gpiob 0 =
      Nat.testBit sampleState.gpiob 0 := by
  have h := C3_setter_frame sampleState
  exact ⟨(h.1 .LOAD).1, (h.1 .LOAD).2.2.2.2.2 7 (by decide) (by decide),
    (h.2.2.1 true).2.2.2.2.2 0 (by decide)⟩

/-- Claim C10: `set_data` performs no masking or range check: for every
integer `v` — including values outside 0..255, such as the concrete 300 —
the in-memory mirror stores `v` unchanged (`get_data` returns `v`) and `v`
is written as-is to the data port latch; nothing else changes. -/
theorem C10_set_data_unmasked (v : Int) (s : ElfState) :
    Elf.data (Elf.set_data v s) = v
  ∧ (Elf.set_data v s).gpioa = v
  ∧ Elf.data (Elf.set_data 300 s) = 300
  ∧ Elf.mode (Elf.set_data v s) = Elf.mode s
  ∧ Elf.mem_protect (Elf.set_data v s) = Elf.mem_protect s
  ∧ Elf.ef4_n (Elf.set_data v s) = Elf.ef4_n s
  ∧ Elf.stb_n (Elf.set_data v s) = Elf.stb_n s
  ∧ (Elf.set_data v s).gpiob = s.gpiob :=
  ⟨rfl, rfl, rfl, rfl, rfl, rfl, rfl, rfl⟩

/-! ### Encoding lemmas for the control-port byte -/

theorem and_lor_disj {m1 m2 : Nat} (g : Nat) (h : m1 &&& m2 = 0) :
    (g ||| m1) &&& m2 = g &&& m2 := by
  apply Nat.eq_of_testBit_eq
  intro i
  have h0 : (Nat.testBit m1 i && Nat.testBit m2 i) = false := by
    rw [← Nat.testBit_land, h]
    exact Nat.zero_testBit i
  rw [Nat.testBit_land, Nat.testBit_land, Nat.testBit_lor]
  cases hm1 : Nat.testBit m1 i <;> cases hm2 : Nat.testBit m2 i <;> simp_all

theorem and_ldiff_disj {m1 m2 : Nat} (g : Nat) (h : m1 &&& m2 = 0) :
    Nat.ldiff g m1 &&& m2 = g &&& m2 := by
  apply Nat.eq_of_testBit_eq
  intro i
  have h0 : (Nat.testBit m1 i && Nat.testBit m2 i) = false := by
    rw [← Nat.testBit_land, h]
    exact Nat.zero_testBit i
  rw [Nat.testBit_land, Nat.testBit_land, Nat.testBit_ldiff]
  cases hm1 : Nat.testBit m1 i <;> cases hm2 : Nat.testBit m2 i <;> simp_all

theorem mode_field_set (g : Nat) (m : Elf.Mode) :
    (Nat.ldiff g MODE ||| m.value) &&& MODE = m.value := by
  apply Nat.eq_of_testBit_eq
  intro i
  rw [Nat.testBit_land, Nat.testBit_lor, Nat.testBit_ldiff]
  by_cases h3 : i = 3
  · subst h3
    simp [show Nat.testBit MODE 3 = true from by decide]
  · by_cases h4 : i = 4
    · subst h4
      simp [show Nat.testBit MODE 4 = true from by decide]
    · simp [testBit_MODE_ne h3 h4, value_testBit_ne m h3 h4]

theorem andMODE_cases (g : Nat) :
    g &&& MODE = 0x00 ∨ g &&& MODE = 0x08 ∨ g &&& MODE = 0x10 ∨
      g &&& MODE = 0x18 := by
  have key : ∀ v : Nat,
      (∀ i, (Nat.testBit g i && Nat.testBit MODE i) = Nat.testBit v i) →
      g &&& MODE = v := fun v hv =>
    Nat.eq_of_testBit_eq fun i => by rw [Nat.testBit_land]; exact hv i
  have hother : ∀ i, i ≠ 3 → i ≠ 4 →
      (Nat.testBit g i && Nat.testBit MODE i) = false := fun i h3 h4 => by
    rw [testBit_MODE_ne h3 h4, Bool.and_false]
  cases hb3 : Nat.testBit g 3 <;> cases hb4 : Nat.testBit g 4
  · refine Or.inl (key 0x00 fun i => ?_)
    by_cases h3 : i = 3
    · subst h3; simp [hb3]
    · by_cases h4 : i = 4
      · subst h4; simp [hb4]
      · rw [hother i h3 h4, Nat.zero_testBit]
  · refine Or.inr (Or.inr (Or.inl (key 0x10 fun i => ?_)))
    by_cases h3 : i = 3
    · subst h3
      rw [hb3, Bool.false_and, show Nat.testBit 0x10 3 = false from by decide]
    · by_cases h4 : i = 4
      · subst h4
        rw [hb4, show Nat.testBit MODE 4 = true from by decide,
          show Nat.testBit 0x10 4 = true from by decide, Bool.true_and]
      · rw [hother i h3 h4, testBit_sixteen_ne h4]
  · refine Or.inr (Or.inl (key 0x08 fun i => ?_))
    by_cases h3 : i = 3
    · subst h3
      rw [hb3, show Nat.testBit MODE 3 = true from by decide,
        show Nat.testBit 0x08 3 = true from by decide, Bool.true_and]
    · by_cases h4 : i = 4
      · subst h4
        rw [hb4, Bool.false_and, show Nat.testBit 0x08 4 = false from by decide]
      · rw [hother i h3 h4, testBit_eight_ne h3]
  · refine Or.inr (Or.inr (Or.inr (key 0x18 fun i => ?_)))
    by_cases h3 : i = 3
    · subst h3
      rw [hb3, show Nat.testBit MODE 3 = true from by decide,
        show Nat.testBit 0x18 3 = true from by decide, Bool.true_and]
    · by_cases h4 : i = 4
      · subst h4
        rw [hb4, show Nat.testBit MODE 4 = true from by decide,
          show Nat.testBit 0x18 4 = true from by decide, Bool.true_and]
      · rw [hother i h3 h4]
        exact (testBit_MODE_ne h3 h4).symm

theorem decodeMode_value (g : Nat) :
    (Elf.decodeMode (g &&& MODE)).value = g &&& MODE := by
  rcases andMODE_cases g with h | h | h | h <;> rw [h] <;> rfl

theorem decide_and_EF4 (g : Nat) :
    decide (g &&& EF4_N = 0) = !Nat.testBit g 2 := by
  rw [show EF4_N = 2 ^ 2 from rfl, Nat.and_two_pow]
  cases h : Nat.testBit g 2 <;> simp

theorem decide_and_STB (g : Nat) :
    decide (g &&& STB_N = 0) = !Nat.testBit g 1 := by
  rw [show STB_N = 2 ^ 1 from rfl, Nat.and_two_pow]
  cases h : Nat.testBit g 1 <;> simp

theorem decide_and_MP (g : Nat) :
    decide (g &&& MEM_PROTECT ≠ 0) = Nat.testBit g 0 := by
  rw [show MEM_PROTECT = 2 ^ 0 from rfl, Nat.and_two_pow]
  cases h : Nat.testBit g 0 <;> simp

theorem ef4_component_set (b : Bool) (s : ElfState) :
    (Elf.set_ef4_n b s).ef4Mirror = !Nat.testBit (Elf.set_ef4_n b s).gpiob 2 := by
  cases b
  · show false = !Nat.testBit (s.gpiob ||| EF4_N) 2
    rw [Nat.testBit_lor, show Nat.testBit EF4_N 2 = true from by decide,
      Bool.or_true]
    rfl
  · show true = !Nat.testBit (Nat.ldiff s.gpiob EF4_N) 2
    rw [Nat.testBit_ldiff, show Nat.testBit EF4_N 2 = true from by decide]
    simp

theorem stb_component_set (b : Bool) (s : ElfState) :
    (Elf.set_stb_n b s).stbMirror = !Nat.testBit (Elf.set_stb_n b s).gpiob 1 := by
  cases b
  · show false = !Nat.testBit (s.gpiob ||| STB_N) 1
    rw [Nat.testBit_lor, show Nat.testBit STB_N 1 = true from by decide,
      Bool.or_true]
    rfl
  · show true = !Nat.testBit (Nat.ldiff s.gpiob STB_N) 1
    rw [Nat.testBit_ldiff, show Nat.testBit STB_N 1 = true from by decide]
    simp

theorem encInv_set_data (v : Int) (s : ElfState) (h : encInv s) :
    encInv (Elf.set_data v s) := h

theorem encInv_setModeV (m : Elf.Mode) (s : ElfState)
    (hef4 : s.ef4Mirror = !Nat.testBit s.gpiob 2)
    (hstb : s.stbMirror = !Nat.testBit s.gpiob 1) :
    encInv (Elf.setModeV m s) := by
  unfold encInv
  refine ⟨(mode_field_set s.gpiob m).symm, ?_, ?_⟩
  · show s.ef4Mirror = !Nat.testBit (Nat.ldiff s.gpiob MODE ||| m.value) 2
    rw [testBit_lor_other (value_testBit_ne m (by decide) (by decide)),
      testBit_ldiff_other (testBit_MODE_ne (by decide) (by decide))]
    exact hef4
  · show s.stbMirror = !Nat.testBit (Nat.ldiff s.gpiob MODE ||| m.value) 1
    rw [testBit_lor_other (value_testBit_ne m (by decide) (by decide)),
      testBit_ldiff_other (testBit_MODE_ne (by decide) (by decide))]
    exact hstb

theorem encInv_set_mem_protect (b : Bool) (s : ElfState) (h : encInv s) :
    encInv (Elf.set_mem_protect b s) := by
  obtain ⟨hmode, hef4, hstb⟩ := h
  cases b
  · unfold encInv
    refine ⟨?_, ?_, ?_⟩
    · show s.modeMirror.value = Nat.ldiff s.gpiob MEM_PROTECT &&& MODE
      rw [and_ldiff_disj s.gpiob (show MEM_PROTECT &&& MODE = 0 by decide)]
      exact hmode
    · show s.ef4Mirror = !Nat.testBit (Nat.ldiff s.gpiob MEM_PROTECT) 2
      rw [testBit_ldiff_other (show Nat.testBit MEM_PROTECT 2 = false from by decide)]
      exact hef4
    · show s.stbMirror = !Nat.testBit (Nat.ldiff s.gpiob MEM_PROTECT) 1
      rw [testBit_ldiff_other (show Nat.testBit MEM_PROTECT 1 = false from by decide)]
      exact hstb
  · unfold encInv
    refine ⟨?_, ?_, ?_⟩
    · show s.modeMirror.value = (s.gpiob ||| MEM_PROTECT) &&& MODE
      rw [and_lor_disj s.gpiob (show MEM_PROTECT &&& MODE = 0 by decide)]
      exact hmode
    · show s.ef4Mirror = !Nat.testBit (s.gpiob ||| MEM_PROTECT) 2
      rw [testBit_lor_other (show Nat.testBit MEM_PROTECT 2 = false from by decide)]
      exact hef4
    · show s.stbMirror = !Nat.testBit (s.gpiob ||| MEM_PROTECT) 1
      rw [testBit_lor_other (show Nat.testBit MEM_PROTECT 1 = false from by decide)]
      exact hstb

theorem encInv_set_ef4_n (b : Bool) (s : ElfState)
    (hmode : s.modeMirror.value = s.gpiob &&& MODE)
    (hstb : s.stbMirror = !Nat.testBit s.gpiob 1) :
    encInv (Elf.set_ef4_n b s) := by
  refine ⟨?_, ef4_component_set b s, ?_⟩
  · cases b
    · show s.modeMirror.value = (s.gpiob ||| EF4_N) &&& MODE
      rw [and_lor_disj s.gpiob (show EF4_N &&& MODE = 0 by decide)]
      exact hmode
    · show s.modeMirror.value = Nat.ldiff s.gpiob EF4_N &&& MODE
      rw [and_ldiff_disj s.gpiob (show EF4_N &&& MODE = 0 by decide)]
      exact hmode
  · cases b
    · show s.stbMirror = !Nat.testBit (s.gpiob ||| EF4_N) 1
      rw [testBit_lor_other (show Nat.testBit EF4_N 1 = false from by decide)]
      exact hstb
    · show s.stbMirror = !Nat.testBit (Nat.ldiff s.gpiob EF4_N) 1
      rw [testBit_ldiff_other (show Nat.testBit EF4_N 1 = false from by decide)]
      exact hstb

theorem encInv_set_stb_n (b : Bool) (s : ElfState)
    (hmode : s.modeMirror.value = s.gpiob &&& MODE)
    (hef4 : s.ef4Mirror = !Nat.testBit s.gpiob 2) :
    encInv (Elf.set_stb_n b s) := by
  refine ⟨?_, ?_, stb_component_set b s⟩
  · cases b
    · show s.modeMirror.value = (s.gpiob ||| STB_N) &&& MODE
      rw [and_lor_disj s.gpiob (show STB_N &&& MODE = 0 by decide)]
      exact hmode
    · show s.modeMirror.value = Nat.ldiff s.gpiob STB_N &&& MODE
      rw [and_ldiff_disj s.gpiob (show STB_N &&& MODE = 0 by decide)]
      exact hmode
  · cases b
    · show s.ef4Mirror = !Nat.testBit (s.gpiob ||| STB_N) 2
      rw [testBit_lor_other (show Nat.testBit STB_N 2 = false from by decide)]
      exact hef4
    · show s.ef4Mirror = !Nat.testBit (Nat.ldiff s.gpiob STB_N) 2
      rw [testBit_ldiff_other (show Nat.testBit STB_N 2 = false from by decide)]
      exact hef4

theorem encInv_coldB (sA : ElfState) :
    encInv (Elf.set_mem_protect false (Elf.set_stb_n false
      (Elf.set_ef4_n false (Elf.setModeV .RESET sA)))) := by
  apply encInv_set_mem_protect
  apply encInv_set_stb_n
  · show Elf.Mode.RESET.value =
      ((Nat.ldiff sA.gpiob MODE ||| Elf.Mode.RESET.value) ||| EF4_N) &&& MODE
    rw [and_lor_disj _ (show EF4_N &&& MODE = 0 by decide), mode_field_set]
  · exact ef4_component_set false _

theorem encInv_init (ia ib : Nat) (ga : Int) (gb : Nat) :
    encInv (Elf.init ia ib ga gb).1 := by
  by_cases hia : ia = OUTPUT <;> by_cases hib : ib = OUTPUT <;>
    simp only [Elf.init, hia, hib, ne_eq, not_true_eq_false, not_false_eq_true,
      if_true, if_false, ite_true, ite_false]
  case pos =>
    exact ⟨decodeMode_value gb, decide_and_EF4 gb, decide_and_STB gb⟩
  case neg =>
    exact encInv_coldB _
  case pos =>
    exact ⟨decodeMode_value gb, decide_and_EF4 gb, decide_and_STB gb⟩
  case neg =>
    exact encInv_coldB _

/-- Claim C4: the encoding between logical fields and the control-port byte
is invariant under every operation: the mode field occupies bits 4
(`WAIT_N`) and 3 (`CLEAR_N`) with the literal enumeration values
LOAD = 0x00, PAUSE = 0x08, RESET = 0x10, RUN = 0x18, a bijection onto the
four bit combinations of the field; and the stored booleans for `ef4_n`
(bit 2) and `stb_n` (bit 1) are always the inverse of their wire bits.
The relation `encInv` states the mirror/byte encoding; it is established
by construction and preserved by every setter, including a `set_mode` call
with a foreign value. -/
theorem C4_encoding_invariant :
    (Elf.Mode.LOAD.value = 0x00 ∧ Elf.Mode.PAUSE.value = 0x08
      ∧ Elf.Mode.RESET.value = 0x10 ∧ Elf.Mode.RUN.value = 0x18
      ∧ WAIT_N = 2 ^ 4 ∧ CLEAR_N = 2 ^ 3 ∧ MODE = CLEAR_N ||| WAIT_N)
  ∧ (∀ m m' : Elf.Mode, m.value = m'.value → m = m')
  ∧ (∀ v : Nat,
      (v = 0x00 ∨ v = 0x08 ∨ v = 0x10 ∨ v = 0x18) ↔ ∃ m : Elf.Mode, m.value = v)
  ∧ (∀ s : ElfState, encInv s →
        (∀ v : Int, encInv (Elf.set_data v s))
      ∧ (∀ m : Elf.Mode, encInv (Elf.setModeV m s))
      ∧ (∀ n : Nat, ∀ s' : ElfState,
          Elf.set_mode (.other n) s = .ok s' → encInv s')
      ∧ (∀ b : Bool, encInv (Elf.set_mem_protect b s))
      ∧ (∀ b : Bool, encInv (Elf.set_ef4_n b s))
      ∧ (∀ b : Bool, encInv (Elf.set_stb_n b s)))
  ∧ (∀ ia ib : Nat, ∀ ga : Int, ∀ gb : Nat, encInv (Elf.init ia ib ga gb).1) := by
  refine ⟨⟨rfl, rfl, rfl, rfl, rfl, rfl, rfl⟩, ?_, ?_, ?_, encInv_init⟩
  · intro m m'
    cases m <;> cases m' <;> intro h <;> first | rfl | exact absurd h (by decide)
  · intro v
    constructor
    · rintro (rfl | rfl | rfl | rfl)
      exacts [⟨.LOAD, rfl⟩, ⟨.PAUSE, rfl⟩, ⟨.RESET, rfl⟩, ⟨.RUN, rfl⟩]
    · rintro ⟨m, rfl⟩
      cases m
      · exact Or.inl rfl
      · exact Or.inr (Or.inr (Or.inl rfl))
      · exact Or.inr (Or.inl rfl)
      · exact Or.inr (Or.inr (Or.inr rfl))
  · intro s h
    refine ⟨fun v => encInv_set_data v s h,
      fun m => encInv_setModeV m s h.2.1 h.2.2,
      fun n s' hok => ?_,
      fun b => encInv_set_mem_protect b s h,
      fun b => encInv_set_ef4_n b s h.1 h.2.2,
      fun b => encInv_set_stb_n b s h.1 h.2.1⟩
    have hs : s = s' := by
      simpa [Elf.set_mode] using hok
    rw [← hs]
    exact h

/-- Claim C4 witness at concrete inputs. -/
theorem C4_encoding_invariant_witness :
    encInv sampleState
  ∧ encInv (Elf.set_ef4_n true sampleState)
  ∧ encInv (Elf.setModeV .RUN sampleState)
  ∧ (∃ m : Elf.Mode, m.value = 0x08)
  ∧ Elf.Mode.RESET = Elf.Mode.RESET := by
  have h := C4_encoding_invariant
  refine ⟨by decide, ?_, ?_, ?_, ?_⟩
  · exact (h.2.2.2.1 sampleState (by decide)).2.2.2.2.1 true
  · exact (h.2.2.2.1 sampleState (by decide)).2.1 .RUN
  · exact (h.2.2.1 0x08).mp (Or.inr (Or.inl rfl))
  · exact h.2.1 .RESET .RESET rfl

theorem decide_and_MP_eq (g : Nat) :
    decide (g &&& MEM_PROTECT = 0) = !Nat.testBit g 0 := by
  rw [show MEM_PROTECT = 2 ^ 0 from rfl, Nat.and_two_pow]
  cases h : Nat.testBit g 0 <;> simp

/-- Claim C6: at construction, independently per port: if the port's
direction register does not already read all-output, the store sets it to
all-output, writes that port's defaults (data 0; mode RESET with
protect/ef4/stb false, via four read-modify-writes of the control byte)
and exposes exactly those defaults; if it already reads all-output, the
store performs no write to that port and exposes the logical fields
decoded from the port's current byte per the §3 masks and inversions. -/
theorem C6_attach_or_initialize (ia ib : Nat) (ga : Int) (gb : Nat) :
    (ia ≠ OUTPUT →
        ((Elf.init ia ib ga gb).2.filter Elf.WEv.touchesA =
            [.iodira OUTPUT, .gpioa 0x00]
      ∧ Elf.data (Elf.init ia ib ga gb).1 = 0
      ∧ (Elf.init ia ib ga gb).1.gpioa = 0))
  ∧ (ia = OUTPUT →
        ((Elf.init ia ib ga gb).2.filter Elf.WEv.touchesA = []
      ∧ Elf.data (Elf.init ia ib ga gb).1 = ga
      ∧ (Elf.init ia ib ga gb).1.gpioa = ga))
  ∧ (ib ≠ OUTPUT →
        ((Elf.init ia ib ga gb).2.filter Elf.WEv.touchesB =
            [.iodirb OUTPUT,
             .gpiob (Nat.ldiff gb MODE ||| Elf.Mode.RESET.value),
             .gpiob (Nat.ldiff gb MODE ||| Elf.Mode.RESET.value ||| EF4_N),
             .gpiob (Nat.ldiff gb MODE ||| Elf.Mode.RESET.value ||| EF4_N ||| STB_N),
             .gpiob (Nat.ldiff
               (Nat.ldiff gb MODE ||| Elf.Mode.RESET.value ||| EF4_N ||| STB_N)
               MEM_PROTECT)]
      ∧ Elf.mode (Elf.init ia ib ga gb).1 = .RESET
      ∧ Elf.mem_protect (Elf.init ia ib ga gb).1 = false
      ∧ Elf.ef4_n (Elf.init ia ib ga gb).1 = false
      ∧ Elf.stb_n (Elf.init ia ib ga gb).1 = false))
  ∧ (ib = OUTPUT →
        ((Elf.init ia ib ga gb).2.filter Elf.WEv.touchesB = []
      ∧ (Elf.mode (Elf.init ia ib ga gb).1).value = gb &&& MODE
      ∧ Elf.mem_protect (Elf.init ia ib ga gb).1 = Nat.testBit gb 0
      ∧ Elf.ef4_n (Elf.init ia ib ga gb).1 = !Nat.testBit gb 2
      ∧ Elf.stb_n (Elf.init ia ib ga gb).1 = !Nat.testBit gb 1)) := by
  by_cases hia : ia = OUTPUT <;> by_cases hib : ib = OUTPUT
  · refine ⟨fun h => absurd hia h, fun _ => ?_, fun h => absurd hib h, fun _ => ?_⟩
    · simp [Elf.init, hia, hib, Elf.data, Elf.set_data, Elf.setModeV,
        Elf.set_ef4_n, Elf.set_stb_n, Elf.set_mem_protect]
    · simp [Elf.init, hia, hib, Elf.mode, Elf.mem_protect, Elf.ef4_n, Elf.stb_n,
        decodeMode_value, decide_and_MP, decide_and_MP_eq, decide_and_EF4,
        decide_and_STB]
  · refine ⟨fun h => absurd hia h, fun _ => ?_, fun _ => ?_, fun h => absurd h hib⟩
    · simp [Elf.init, hia, hib, Elf.data, Elf.WEv.touchesA, Elf.set_data,
        Elf.setModeV, Elf.set_ef4_n, Elf.set_stb_n, Elf.set_mem_protect]
    · simp [Elf.init, hia, hib, Elf.mode, Elf.mem_protect, Elf.ef4_n, Elf.stb_n,
        Elf.WEv.touchesB, Elf.set_data, Elf.setModeV, Elf.set_ef4_n,
        Elf.set_stb_n, Elf.set_mem_protect]
  · refine ⟨fun _ => ?_, fun h => absurd h hia, fun h => absurd hib h, fun _ => ?_⟩
    · simp [Elf.init, hia, hib, Elf.data, Elf.WEv.touchesA, Elf.set_data,
        Elf.setModeV, Elf.set_ef4_n, Elf.set_stb_n, Elf.set_mem_protect]
    · simp [Elf.init, hia, hib, Elf.mode, Elf.mem_protect, Elf.ef4_n, Elf.stb_n,
        Elf.WEv.touchesB, decodeMode_value, decide_and_MP, decide_and_MP_eq,
        decide_and_EF4, decide_and_STB]
  · refine ⟨fun _ => ?_, fun h => absurd h hia, fun _ => ?_, fun h => absurd h hib⟩
    · simp [Elf.init, hia, hib, Elf.data, Elf.WEv.touchesA, Elf.set_data,
        Elf.setModeV, Elf.set_ef4_n, Elf.set_stb_n, Elf.set_mem_protect]
    · simp [Elf.init, hia, hib, Elf.mode, Elf.mem_protect, Elf.ef4_n, Elf.stb_n,
        Elf.WEv.touchesB, Elf.set_data, Elf.setModeV, Elf.set_ef4_n,
        Elf.set_stb_n, Elf.set_mem_protect]

/-- Claim C6 witness at concrete inputs, covering both the
initialize branch and the adopt branch of each port. -/
theorem C6_attach_or_initialize_witness :
    ((Elf.init 1 0 7 0x15).2.filter Elf.WEv.touchesA =
        [.iodira OUTPUT, .gpioa 0x00])
  ∧ ((Elf.init 1 0 7 0x15).2.filter Elf.WEv.touchesB = [])
  ∧ Elf.ef4_n (Elf.init 1 0 7 0x15).1 = !Nat.testBit 0x15 2
  ∧ Elf.mode (Elf.init 0 1 7 0x15).1 = .RESET
  ∧ Elf.data (Elf.init 0 1 7 0x15).1 = 7 := by
  have h1 := C6_attach_or_initialize 1 0 7 0x15
  have h2 := C6_attach_or_initialize 0 1 7 0x15
  exact ⟨(h1.1 (by decide)).1, (h1.2.2.2 rfl).1,
    (h1.2.2.2 rfl).2.2.2.1, (h2.2.2.1 (by decide)).2.1, (h2.2.1 rfl).2.1⟩

/-! ### Python integer arithmetic lemmas for the hex-nibble update -/

theorem int_lor_ofNat (a b : Nat) :
    Int.lor (Int.ofNat a) (Int.ofNat b) = Int.ofNat (a ||| b) := rfl

theorem int_land_ofNat (a b : Nat) :
    Int.land (Int.ofNat a) (Int.ofNat b) = Int.ofNat (a &&& b) := rfl

theorem int_lor_negSucc_ofNat (a b : Nat) :
    Int.lor (Int.negSucc a) (Int.ofNat b) = Int.negSucc (Nat.ldiff a b) := rfl

theorem int_land_negSucc_ofNat (a b : Nat) :
    Int.land (Int.negSucc a) (Int.ofNat b) = Int.ofNat (Nat.ldiff b a) := rfl

theorem pyShl_ofNat (m : Nat) :
    Fp.pyShl (Int.ofNat m) 4 = Int.ofNat (16 * m) := by
  unfold Fp.pyShl
  rw [show ((2 : Int) ^ (4 : Nat)) = 16 from by norm_num, Nat.mul_comm 16 m]
  rfl

theorem pyShl_negSucc (m : Nat) :
    Fp.pyShl (Int.negSucc m) 4 = Int.negSucc (16 * m + 15) := by
  unfold Fp.pyShl
  rw [show ((2 : Int) ^ (4 : Nat)) = 16 from by norm_num, Int.negSucc_eq,
    Int.negSucc_eq]
  push_cast
  ring

theorem and255 (w : Nat) : w &&& 255 = w % 256 := by
  apply Nat.eq_of_testBit_eq
  intro i
  rw [Nat.testBit_land, show (255 : Nat) = 2 ^ 8 - 1 from rfl,
    Nat.testBit_two_pow_sub_one,
    show (256 : Nat) = 2 ^ 8 from rfl, Nat.testBit_mod_two_pow]
  exact Bool.and_comm _ _

theorem and15 (w : Nat) : w &&& 15 = w % 16 := by
  apply Nat.eq_of_testBit_eq
  intro i
  rw [Nat.testBit_land, show (15 : Nat) = 2 ^ 4 - 1 from rfl,
    Nat.testBit_two_pow_sub_one,
    show (16 : Nat) = 2 ^ 4 from rfl, Nat.testBit_mod_two_pow]
  exact Bool.and_comm _ _

theorem lor16 (m n : Nat) (h : n < 16) : (16 * m ||| n) = 16 * m + n := by
  apply Nat.eq_of_testBit_eq
  intro i
  rw [Nat.testBit_lor]
  rw [show (16 * m + n : Nat) = 2 ^ 4 * m + n from by ring,
    show (16 * m : Nat) = 2 ^ 4 * m + 0 from by ring]
  rw [Nat.testBit_mul_pow_two_add m (by norm_num) i,
    Nat.testBit_mul_pow_two_add m (show n < 2 ^ 4 from h) i]
  by_cases hi : i < 4
  · simp [hi]
  · have h16 : (16 : Nat) ≤ 2 ^ i := by
      calc (16 : Nat) = 2 ^ 4 := rfl
        _ ≤ 2 ^ i := Nat.pow_le_pow_right (by norm_num) (Nat.le_of_not_lt hi)
    have hn : Nat.testBit n i = false :=
      Nat.testBit_lt_two_pow (Nat.lt_of_lt_of_le h h16)
    simp [hi, hn]

theorem hexShift_ofNat (m n : Nat) (hn : n < 16) :
    Fp.hexShift (Int.ofNat m) n = Int.ofNat ((16 * m + n) % 256) := by
  unfold Fp.hexShift
  rw [pyShl_ofNat, show (0xff : Int) = Int.ofNat 255 from rfl,
    int_lor_ofNat, int_land_ofNat, lor16 m n hn, and255]

theorem ldiff_res_mod (m n : Nat) (hn : n < 16) :
    Nat.ldiff 255 (Nat.ldiff (16 * m + 15) n) % 16 = n := by
  rw [← and15]
  apply Nat.eq_of_testBit_eq
  intro i
  rw [Nat.testBit_land, Nat.testBit_ldiff, Nat.testBit_ldiff]
  by_cases hi : i < 4
  · have h255 : Nat.testBit 255 i = true := by
      rw [show (255 : Nat) = 2 ^ 8 - 1 from rfl, Nat.testBit_two_pow_sub_one]
      exact decide_eq_true (by omega)
    have h15 : Nat.testBit 15 i = true := by
      rw [show (15 : Nat) = 2 ^ 4 - 1 from rfl, Nat.testBit_two_pow_sub_one]
      exact decide_eq_true hi
    have hm15 : Nat.testBit (16 * m + 15) i = true := by
      rw [show (16 * m + 15 : Nat) = 2 ^ 4 * m + 15 from by ring,
        Nat.testBit_mul_pow_two_add m (by norm_num) i, if_pos hi]
      exact h15
    rw [h255, hm15, h15]
    cases hb : Nat.testBit n i <;> simp
  · have h15 : Nat.testBit 15 i = false := by
      rw [show (15 : Nat) = 2 ^ 4 - 1 from rfl, Nat.testBit_two_pow_sub_one]
      exact decide_eq_false hi
    have h16 : (16 : Nat) ≤ 2 ^ i := by
      calc (16 : Nat) = 2 ^ 4 := rfl
        _ ≤ 2 ^ i := Nat.pow_le_pow_right (by norm_num) (Nat.le_of_not_lt hi)
    have hn2 : Nat.testBit n i = false :=
      Nat.testBit_lt_two_pow (Nat.lt_of_lt_of_le hn h16)
    rw [h15, hn2, Bool.and_false]

theorem hexShift_low (d : Int) (n : Nat) (hn : n < 16) :
    ∃ r : Nat, Fp.hexShift d n = Int.ofNat r ∧ r % 16 = n := by
  cases d with
  | ofNat m =>
      exact ⟨(16 * m + n) % 256, hexShift_ofNat m n hn, by omega⟩
  | negSucc m =>
      refine ⟨Nat.ldiff 255 (Nat.ldiff (16 * m + 15) n), ?_, ldiff_res_mod m n hn⟩
      unfold Fp.hexShift
      rw [pyShl_negSucc, show (0xff : Int) = Int.ofNat 255 from rfl,
        int_lor_negSucc_ofNat, int_land_negSucc_ofNat]

theorem hexShift_hexShift (d : Int) (n9 n10 : Nat) (h9 : n9 < 16)
    (h10 : n10 < 16) :
    Fp.hexShift (Fp.hexShift d n9) n10 = Int.ofNat (16 * n9 + n10) := by
  obtain ⟨r, hr, hrm⟩ := hexShift_low d n9 h9
  rw [hr, hexShift_ofNat r n10 h10]
  congr 1
  omega

theorem hexVal_spec (imgs : Fp.Images) (st : Fp.ST) (c : Char) (n : Nat)
    (h : hexVal c = some n) :
    n < 16 ∧
      Fp.on_key imgs c st =
        (Elf.set_data (Fp.hexShift (Elf.data st.1) n) st.1,
         st.2 ++ [.setData (Fp.hexShift (Elf.data st.1) n)]) := by
  unfold hexVal at h
  by_cases h0 : c = '0'
  · rw [if_pos h0] at h
    injection h with h
    subst h
    subst h0
    exact ⟨by omega, rfl⟩
  · rw [if_neg h0] at h
    by_cases h1 : c = '1'
    · rw [if_pos h1] at h
      injection h with h
      subst h
      subst h1
      exact ⟨by omega, rfl⟩
    · rw [if_neg h1] at h
      by_cases h2 : c = '2'
      · rw [if_pos h2] at h
        injection h with h
        subst h
        subst h2
        exact ⟨by omega, rfl⟩
      · rw [if_neg h2] at h
        by_cases h3 : c = '3'
        · rw [if_pos h3] at h
          injection h with h
          subst h
          subst h3
          exact ⟨by omega, rfl⟩
        · rw [if_neg h3] at h
          by_cases h4 : c = '4'
          · rw [if_pos h4] at h
            injection h with h
            subst h
            subst h4
            exact ⟨by omega, rfl⟩
          · rw [if_neg h4] at h
            by_cases h5 : c = '5'
            · rw [if_pos h5] at h
              injection h with h
              subst h
              subst h5
              exact ⟨by omega, rfl⟩
            · rw [if_neg h5] at h
              by_cases h6 : c = '6'
              · rw [if_pos h6] at h
                injection h with h
                subst h
                subst h6
                exact ⟨by omega, rfl⟩
              · rw [if_neg h6] at h
                by_cases h7 : c = '7'
                · rw [if_pos h7] at h
                  injection h with h
                  subst h
                  subst h7
                  exact ⟨by omega, rfl⟩
                · rw [if_neg h7] at h
                  by_cases h8 : c = '8'
                  · rw [if_pos h8] at h
                    injection h with h
                    subst h
                    subst h8
                    exact ⟨by omega, rfl⟩
                  · rw [if_neg h8] at h
                    by_cases h9 : c = '9'
                    · rw [if_pos h9] at h
                      injection h with h
                      subst h
                      subst h9
                      exact ⟨by omega, rfl⟩
                    · rw [if_neg h9] at h
                      by_cases h10 : c = 'a'
                      · rw [if_pos h10] at h
                        injection h with h
                        subst h
                        subst h10
                        exact ⟨by omega, rfl⟩
                      · rw [if_neg h10] at h
                        by_cases h11 : c = 'b'
                        · rw [if_pos h11] at h
                          injection h with h
                          subst h
                          subst h11
                          exact ⟨by omega, rfl⟩
                        · rw [if_neg h11] at h
                          by_cases h12 : c = 'c'
                          · rw [if_pos h12] at h
                            injection h with h
                            subst h
                            subst h12
                            exact ⟨by omega, rfl⟩
                          · rw [if_neg h12] at h
                            by_cases h13 : c = 'd'
                            · rw [if_pos h13] at h
                              injection h with h
                              subst h
                              subst h13
                              exact ⟨by omega, rfl⟩
                            · rw [if_neg h13] at h
                              by_cases h14 : c = 'e'
                              · rw [if_pos h14] at h
                                injection h with h
                                subst h
                                subst h14
                                exact ⟨by omega, rfl⟩
                              · rw [if_neg h14] at h
                                by_cases h15 : c = 'f'
                                · rw [if_pos h15] at h
                                  injection h with h
                                  subst h
                                  subst h15
                                  exact ⟨by omega, rfl⟩
                                · rw [if_neg h15] at h
                                  exact Option.noConfusion h

theorem hexVal_lt (c : Char) (n : Nat) (h : hexVal c = some n) :
    n < 16 :=
  (hexVal_spec sampleImages (sampleState, []) c n h).1

theorem on_key_hex (imgs : Fp.Images) (st : Fp.ST) (c : Char) (n : Nat)
    (h : hexVal c = some n) :
    Fp.on_key imgs c st =
      (Elf.set_data (Fp.hexShift (Elf.data st.1) n) st.1,
       st.2 ++ [.setData (Fp.hexShift (Elf.data st.1) n)]) :=
  (hexVal_spec imgs st c n h).2

/-- Claim C7: in CONTROL interaction mode, for every hex-digit key (0-9,
a-f) with nibble value n, `on_key` updates data to
`((data << 4) | n) & 0xFF` (Python two's-complement semantics, via
`hexShift`); in particular from data = 0x05 the key `'1'` yields
data = 0x51, and after eight hex digits followed by two more the data
byte equals the low 8 bits formed by the last two digits. -/
theorem C7_hex_nibble_dispatch :
    (∀ imgs : Fp.Images, ∀ st : Fp.ST, ∀ c : Char, ∀ n : Nat,
        hexVal c = some n →
          Fp.on_key imgs c st =
            (Elf.set_data (Fp.hexShift (Elf.data st.1) n) st.1,
             st.2 ++ [.setData (Fp.hexShift (Elf.data st.1) n)]))
  ∧ Elf.data (Fp.on_key sampleImages '1'
      (Elf.set_data 0x05 sampleState, [])).1 = 0x51
  ∧ (∀ imgs : Fp.Images, ∀ s : ElfState, ∀ cs : List Char,
      ∀ c9 c10 : Char, ∀ n9 n10 : Nat,
        cs.length = 8 → (∀ c ∈ cs, (hexVal c).isSome = true) →
        hexVal c9 = some n9 → hexVal c10 = some n10 →
        Elf.data ((cs ++ [c9, c10]).foldl
            (fun st c => Fp.on_key imgs c st) (s, [])).1
          = Int.ofNat (16 * n9 + n10)) := by
  refine ⟨fun imgs st c n h => on_key_hex imgs st c n h, by decide, ?_⟩
  intro imgs s cs c9 c10 n9 n10 hlen hhex h9 h10
  rw [List.foldl_append, List.foldl_cons, List.foldl_cons, List.foldl_nil]
  rw [on_key_hex imgs _ c9 n9 h9, on_key_hex imgs _ c10 n10 h10]
  show Fp.hexShift (Elf.data (Elf.set_data _ _)) n10 = _
  rw [show ∀ (v : Int) (t : ElfState), Elf.data (Elf.set_data v t) = v
      from fun _ _ => rfl]
  exact hexShift_hexShift _ n9 n10 (hexVal_lt c9 n9 h9) (hexVal_lt c10 n10 h10)

/-- Claim C7 witness at concrete inputs. -/
theorem C7_hex_nibble_dispatch_witness :
    Fp.on_key sampleImages 'a' (sampleState, []) =
      (Elf.set_data (Fp.hexShift (Elf.data sampleState) 10) sampleState,
       [.setData (Fp.hexShift (Elf.data sampleState) 10)])
  ∧ Elf.data ((['0', '0', '0', '0', '0', '0', '0', '0'] ++ ['2', '3']).foldl
        (fun st c => Fp.on_key sampleImages c st) (sampleState, [])).1
      = Int.ofNat (16 * 2 + 3) := by
  have h := C7_hex_nibble_dispatch
  exact ⟨h.1 sampleImages (sampleState, []) 'a' 10 rfl,
    h.2.2 sampleImages sampleState ['0', '0', '0', '0', '0', '0', '0', '0']
      '2' '3' 2 3 rfl (by decide) rfl rfl⟩

/-- Claim C8 counterexample: the claim says the release notifier covers
the symbols i, newline, space *and any KEYBOARD-mode symbol*.  `run_card`
registers `on_release` with the keyboard hook only for the three keys
`'i'`, newline and space, so an ordinary KEYBOARD-mode printable symbol
such as `'x'` has no matching release registration. -/
theorem C8_counterexample : ¬ ('x' ∈ Fp.release_hook_keys) := by decide

/-- Claim C8 (amended): while InteractionMode = KEYBOARD, every received
symbol that survives the loop's case-fold, quit and NUL checks performs
data ← the symbol's code followed by stb_n ← true; release callbacks are
registered only for `'i'`, newline and space — not for KEYBOARD-mode
symbols — and every delivered release event sets both ef4_n and stb_n to
false regardless of InteractionMode. -/
theorem C8_keyboard_amended :
    (∀ imgs : Fp.Images, ∀ st : Fp.ST, ∀ c : Char,
        Fp.pyLower c = c → c ≠ 'q' → c.toNat ≠ 0 →
        Fp.run_card_step imgs .KEYBOARD c st =
          (false, .KEYBOARD,
            (Elf.set_stb_n true (Elf.set_data (c.toNat : Int) st.1),
             st.2 ++ [.setData (c.toNat : Int), .setStb true])))
  ∧ Fp.release_hook_keys = ['i', '\n', ' ']
  ∧ (∀ st : Fp.ST,
      Fp.on_release st =
        (Elf.set_stb_n false (Elf.set_ef4_n false st.1),
         st.2 ++ [.setEf4 false, .setStb false])) := by
  refine ⟨?_, rfl, fun st => by simp [Fp.on_release, Fp.step]⟩
  intro imgs st c hl hq h0
  simp only [Fp.run_card_step]
  rw [hl, if_neg hq, if_neg h0, if_pos trivial]
  simp [Fp.step]

/-- Claim C8 witness at concrete inputs. -/
theorem C8_keyboard_amended_witness :
    Fp.run_card_step sampleImages .KEYBOARD 'x' (sampleState, []) =
      (false, .KEYBOARD,
        (Elf.set_stb_n true (Elf.set_data (('x').toNat : Int) sampleState),
         [.setData (('x').toNat : Int), .setStb true]))
  ∧ Fp.on_release (sampleState, []) =
      (Elf.set_stb_n false (Elf.set_ef4_n false sampleState),
       [.setEf4 false, .setStb false]) := by
  have h := C8_keyboard_amended
  exact ⟨h.1 sampleImages (sampleState, []) 'x' rfl (by decide) (by decide),
    h.2.2 (sampleState, [])⟩
